import Mathlib

/-!
Shallow embedding of `hassio-google-drive-backup/backup/snapshots.py`.

The module defines two concrete record views (`DriveSnapshot` over a raw
Google-Drive metadata record, `HASnapshot` over a raw Home-Assistant record)
and the aggregate `Snapshot` that reconciles an optional Drive record, an
optional HA record and transient pending/transfer/restore state.

Python dictionaries of string properties are modelled as association lists
(first match wins on lookup, in-place replace on assignment, as CPython
dicts behave). `DriveSnapshot.__init__` takes a *shallow* copy of its input
record (`source.copy()`), so the nested `appProperties` dictionary is shared
between the caller's record and the artifact; we model that sharing with an
explicit heap of property maps addressed by `Nat` references: a shallow copy
copies the top-level fields, including the reference, but not the referenced
map. Python exceptions raised by the translated code paths (KeyError on a
missing dictionary key, AttributeError on the `self.driveItem` misspelling)
are modelled with `Except PyError`.
-/

namespace Snapshots

/-- Modelled from the spec: `parseDateTime` lives in `.helpers`, which is not
part of the sources; the spec only says the raw `snapshot_date` / `date`
string is "parsed into createdAt". No claim depends on the parsed value, so a
timestamp is represented by the string it was parsed from. -/
abbrev DateTime := String

/-- Modelled from the spec: see `DateTime`. -/
def parseDateTime (s : String) : DateTime := s

def PROP_KEY_SLUG : String := "snapshot_slug"
def PROP_KEY_DATE : String := "snapshot_date"
def PROP_KEY_NAME : String := "snapshot_name"
def PROP_TYPE : String := "type"
def PROP_VERSION : String := "version"
def PROP_PROTECTED : String := "protected"
def PROP_RETAINED : String := "retained"

/-- A Python string-to-string dictionary (the nested `appProperties` map),
as an association list. -/
abbrev AppProps := List (String × String)

/-- `props[k]` lookup: first matching key. -/
def lookupProp : AppProps → String → Option String
  | [], _ => none
  | (k, v) :: rest, key => if k = key then some v else lookupProp rest key

/-- `props[k] = v` assignment: replace the first binding of `k` in place,
else append. -/
def insertProp : AppProps → String → String → AppProps
  | [], key, v => [(key, v)]
  | (k, w) :: rest, key, v =>
      if k = key then (key, v) :: rest else (k, w) :: insertProp rest key v

/-- The heap of `appProperties` dictionaries; a raw Drive record holds a
reference (index) into it, and a shallow copy of the record copies the
reference, not the dictionary. -/
abbrev Heap := List AppProps

def Heap.deref (h : Heap) (r : Nat) : AppProps := h.getD r []

def Heap.setAt (h : Heap) (r : Nat) (v : AppProps) : Heap := h.set r v

/-- Python exceptions that the translated code paths can raise. -/
inductive PyError where
  | keyError (key : String)
  | attributeError (attr : String)
  deriving DecidableEq, Repr

/-- Python `str` of a `bool`: `"True"` / `"False"`. -/
def pyBoolStr (b : Bool) : String := if b then "True" else "False"

/-- The top-level fields of a raw Drive metadata record that the source
reads: `id`, `size`, and the nested `appProperties` dictionary, held by
reference into the `Heap`. -/
structure DriveSource where
  id : String
  size : Int
  appProperties : Nat
  deriving DecidableEq, Repr

/-- `DriveSnapshot`: wraps a shallow copy of the raw record (`source.copy()`)
and the date parsed at construction time (`self._date`). -/
structure DriveSnapshot where
  source : DriveSource
  dateParsed : DateTime
  deriving DecidableEq, Repr

namespace DriveSnapshot

/-- `DriveSnapshot.__init__`: stores `source.copy()` — a shallow copy, which
duplicates the top-level fields (here an immutable value, so the copy is the
value itself) while the `appProperties` heap reference stays shared with the
caller's record — and eagerly reads `appProperties[PROP_KEY_DATE]`, raising
KeyError when the key is absent. -/
def init (h : Heap) (source : DriveSource) : Except PyError DriveSnapshot :=
  match lookupProp (Heap.deref h source.appProperties) PROP_KEY_DATE with
  | none => .error (.keyError PROP_KEY_DATE)
  | some d => .ok ⟨source, parseDateTime d⟩

def id (d : DriveSnapshot) : String := d.source.id

def name (h : Heap) (d : DriveSnapshot) : Except PyError String :=
  match lookupProp (Heap.deref h d.source.appProperties) PROP_KEY_NAME with
  | none => .error (.keyError PROP_KEY_NAME)
  | some v => .ok v

def slug (h : Heap) (d : DriveSnapshot) : Except PyError String :=
  match lookupProp (Heap.deref h d.source.appProperties) PROP_KEY_SLUG with
  | none => .error (.keyError PROP_KEY_SLUG)
  | some v => .ok v

def size (d : DriveSnapshot) : Int := d.source.size

def date (d : DriveSnapshot) : DateTime := d.dateParsed

def snapshotType (h : Heap) (d : DriveSnapshot) : String :=
  match lookupProp (Heap.deref h d.source.appProperties) PROP_TYPE with
  | some v => v
  | none => "full"

def version (h : Heap) (d : DriveSnapshot) : String :=
  match lookupProp (Heap.deref h d.source.appProperties) PROP_VERSION with
  | some v => v
  | none => "?"

/-- `protected` is a Lean keyword, hence the trailing underscore. -/
def protected_ (h : Heap) (d : DriveSnapshot) : Bool :=
  match lookupProp (Heap.deref h d.source.appProperties) PROP_PROTECTED with
  | some v => v == "true" || v == "True"
  | none => false

def retained (h : Heap) (d : DriveSnapshot) : Bool :=
  match lookupProp (Heap.deref h d.source.appProperties) PROP_RETAINED with
  | some v => v == "true" || v == "True"
  | none => false

/-- `setRetain`: writes `str(retain)` into the `appProperties` dictionary the
artifact holds by reference — the same dictionary the caller's original
record references, since `__init__` copied only the top level. Returns the
updated heap. -/
def setRetain (h : Heap) (d : DriveSnapshot) (retain : Bool) : Heap :=
  Heap.setAt h d.source.appProperties
    (insertProp (Heap.deref h d.source.appProperties) PROP_RETAINED (pyBoolStr retain))

end DriveSnapshot

/-- The fields of a raw Home-Assistant record that the source reads. The
`protected` key is a Lean keyword, hence the trailing underscore; `size` is
in mebibytes per the raw record. -/
structure HASource where
  name : String
  slug : String
  size : Int
  date : String
  type : String
  homeassistant : String
  protected_ : Bool
  deriving DecidableEq, Repr

/-- `HASnapshot`: wraps a copy of the raw record, the externally supplied
retention flag (`self._retained`), and the date parsed at construction. -/
structure HASnapshot where
  source : HASource
  retained : Bool
  dateParsed : DateTime
  deriving DecidableEq, Repr

namespace HASnapshot

/-- `HASnapshot.__init__`. -/
def init (source : HASource) (retained : Bool) : HASnapshot :=
  ⟨source, retained, parseDateTime source.date⟩

def name (s : HASnapshot) : String := s.source.name

def slug (s : HASnapshot) : String := s.source.slug

/-- raw `size` is in mebibytes: `int(self.source['size']) * 1024 * 1024`. -/
def size (s : HASnapshot) : Int := s.source.size * 1024 * 1024

def date (s : HASnapshot) : DateTime := s.dateParsed

def snapshotType (s : HASnapshot) : String := s.source.type

def version (s : HASnapshot) : String := s.source.homeassistant

def protected_ (s : HASnapshot) : Bool := s.source.protected_

end HASnapshot

/-- Python truthiness of an `Optional[str]`: `None` and `""` are falsy. -/
def optStrTruthy : Option String → Bool
  | some s => s != ""
  | none => false

/-- The aggregate `Snapshot`. Field names keep the source's spellings,
including the misspelt `donwloading` / `donwload_failed`. Two extra fields
model attributes the source creates dynamically: `drive`, assigned (and
never read by the accessors) by the `update` method's `self.drive = snapshot`
branch; and `downloadFailedAttr`, the instance attribute created by
`setDownloading`'s `self.downloadFailed = False`, which shadows the
`downloadFailed` method instead of touching `donwload_failed`. -/
structure Snapshot where
  driveitem : Option DriveSnapshot
  pending : Bool
  ha : Option HASnapshot
  donwloading : Int
  donwload_failed : Bool
  pending_name : Option String
  pending_date : Option DateTime
  pending_slug : Option String
  uploading_pct : Int
  pendingHasFailed : Bool
  will_backup : Bool
  restoring : Option Bool
  deleteNextFromDrive : Option Bool
  deleteNextFromHa : Option Bool
  pending_retain_drive : Bool
  pending_retain_ha : Bool
  drive : Option DriveSnapshot
  downloadFailedAttr : Option Bool
  deriving DecidableEq, Repr

namespace Snapshot

/-- `Snapshot.__init__(snapshot)`: the argument is an `HASnapshot`, a
`DriveSnapshot`, or `None` (a pure pending placeholder). -/
def init (snapshot : Option (HASnapshot ⊕ DriveSnapshot)) : Snapshot :=
  { driveitem := match snapshot with
      | some (Sum.inr d) => some d
      | _ => none
    pending := match snapshot with
      | some _ => false
      | none => true
    ha := match snapshot with
      | some (Sum.inl s) => some s
      | _ => none
    donwloading := -1
    donwload_failed := false
    pending_name := some ""
    pending_date := none
    pending_slug := none
    uploading_pct := -1
    pendingHasFailed := false
    will_backup := true
    restoring := none
    deleteNextFromDrive := none
    deleteNextFromHa := none
    pending_retain_drive := false
    pending_retain_ha := false
    drive := none
    downloadFailedAttr := none }

def setPending (name : String) (date : DateTime) (retain_drive : Bool)
    (retain_ha : Bool) (s : Snapshot) : Snapshot :=
  { s with
    pending_name := some name
    pending_date := some date
    pending_slug := some "PENDING"
    pending := true
    pending_retain_drive := retain_drive
    pending_retain_ha := retain_ha }

def endPending (slug : String) (s : Snapshot) : Snapshot :=
  { s with pending_slug := some slug }

/-- the `pendingFailed()` method: sets the `pendingHasFailed` flag. -/
def pendingFailed (s : Snapshot) : Snapshot :=
  { s with pendingHasFailed := true }

def setWillBackup (will : Bool) (s : Snapshot) : Snapshot :=
  { s with will_backup := will }

def name (h : Heap) (s : Snapshot) : Except PyError String :=
  match s.driveitem with
  | some d => DriveSnapshot.name h d
  | none =>
    match s.ha with
    | some hs => .ok hs.name
    | none =>
      if s.pending && optStrTruthy s.pending_name then
        .ok (s.pending_name.getD "")
      else
        .ok "error"

def slug (h : Heap) (s : Snapshot) : Except PyError String :=
  match s.driveitem with
  | some d => DriveSnapshot.slug h d
  | none =>
    match s.ha with
    | some hs => .ok hs.slug
    | none =>
      if s.pending && optStrTruthy s.pending_slug then
        .ok (s.pending_slug.getD "")
      else
        .ok "error"

def size (s : Snapshot) : Int :=
  match s.driveitem with
  | some d => d.size
  | none =>
    match s.ha with
    | some hs => hs.size
    | none => 0

/-- `snapshotType()`: the Drive branch reads `self.driveItem`, but the field
is spelt `driveitem`, so that branch raises AttributeError. -/
def snapshotType (s : Snapshot) : Except PyError String :=
  match s.ha with
  | some hs => .ok hs.snapshotType
  | none =>
    match s.driveitem with
    | some _ => .error (.attributeError "driveItem")
    | none => .ok "pending"

/-- `version()`: both non-default branches call `snapshotType()` on the
record, not `version()`, as the source does. -/
def version (h : Heap) (s : Snapshot) : Except PyError String :=
  match s.ha with
  | some hs => .ok hs.snapshotType
  | none =>
    match s.driveitem with
    | some d => .ok (DriveSnapshot.snapshotType h d)
    | none => .ok "?"

def protected_ (h : Heap) (s : Snapshot) : Bool :=
  match s.ha with
  | some hs => hs.protected_
  | none =>
    match s.driveitem with
    | some d => DriveSnapshot.protected_ h d
    | none => false

/-- `date()`: the final fallback is `datetime.now()`; the clock is passed
explicitly as `now`. A `datetime` object is always truthy in Python. -/
def date (now : DateTime) (s : Snapshot) : DateTime :=
  match s.driveitem with
  | some d => d.date
  | none =>
    match s.ha with
    | some hs => hs.date
    | none =>
      match s.pending_date with
      | some dt => if s.pending then dt else now
      | none => now

/-- `sizeString()` on the byte count: the source computes with Python floats
and truncates with `int(...)`; division only ever happens on values above
1024, and for sizes below 2^53 the float quotients by powers of two are
exact, so integer division coincides. -/
def sizeStringOfBytes (n : Int) : String :=
  if n ≤ 1024 then toString n ++ " B"
  else if n ≤ 1024 * 1024 then toString (n / 1024) ++ " kB"
  else if n ≤ 1024 * 1024 * 1024 then toString (n / (1024 * 1024)) ++ " MB"
  else toString (n / (1024 * 1024 * 1024)) ++ " GB"

def sizeString (s : Snapshot) : String := sizeStringOfBytes s.size

/-- `setDownloading(percent)`: the second statement, `self.downloadFailed =
False`, creates an instance attribute shadowing the method of that name; it
does not touch `donwload_failed`. -/
def setDownloading (percent : Int) (s : Snapshot) : Snapshot :=
  { s with donwloading := percent, downloadFailedAttr := some false }

/-- the `downloadFailed()` method: sets the misspelt failure flag. -/
def downloadFailed (s : Snapshot) : Snapshot :=
  { s with donwload_failed := true }

def isDownloading (s : Snapshot) : Bool := 0 ≤ s.donwloading

def isRestoring (s : Snapshot) : Bool := s.restoring.isSome

def isInDrive (s : Snapshot) : Bool := s.driveitem.isSome

def isInHA (s : Snapshot) : Bool := s.ha.isSome

/-- `status()`: the decision table, first matching rule wins, in source
order. `"Refreshing snapshot".format(...)` has no placeholder, so it is the
constant string. -/
def status (s : Snapshot) : String :=
  match s.restoring with
  | some b => if b then "Restoring" else "Restore Complete"
  | none =>
    if s.isDownloading then
      if s.donwload_failed then "Loading Failed!"
      else if s.donwloading = 100 then "Refreshing snapshot"
      else "Loading " ++ toString s.donwloading ++ "%"
    else if s.isInDrive && s.isInHA then "Backed Up"
    else if s.isInDrive && !s.isInHA then "Drive Only"
    else if !s.isInDrive && s.isInHA && 0 ≤ s.uploading_pct then
      "Uploading " ++ toString s.uploading_pct ++ "%"
    else if !s.isInDrive && s.isInHA then
      if s.will_backup then "Waiting" else "Hass.io Only"
    else if s.pending then "Pending"
    else "Invalid State"

def setDrive (d : DriveSnapshot) (s : Snapshot) : Snapshot :=
  { s with
    driveitem := some d
    pending_name := none
    pending_date := none
    pending_slug := none
    uploading_pct := -1
    pending := false }

def setHA (ha : HASnapshot) (s : Snapshot) : Snapshot :=
  { s with
    ha := some ha
    pending_name := none
    pending_date := none
    pending_slug := none
    uploading_pct := -1
    pending := false
    donwloading := -1
    donwload_failed := false }

def isPending (s : Snapshot) : Bool :=
  s.pending && !s.isInHA && !s.pendingHasFailed

def isDeleted (s : Snapshot) : Bool :=
  !s.isPending && !s.isInHA && !s.isInDrive

/-- `update(snapshot)`: the HA branch assigns `self.ha`; the other branch
assigns `self.drive` — not `self.driveitem` — so the attached Drive record
is never seen by `isInDrive()` or the accessors. -/
def update (snapshot : HASnapshot ⊕ DriveSnapshot) (s : Snapshot) : Snapshot :=
  match snapshot with
  | Sum.inl hs => { s with ha := some hs }
  | Sum.inr ds => { s with drive := some ds }

def uploading (percent : Int) (s : Snapshot) : Snapshot :=
  { s with uploading_pct := percent }

def driveRetained (h : Heap) (s : Snapshot) : Bool :=
  match s.driveitem with
  | some d => DriveSnapshot.retained h d || s.pending_retain_drive
  | none => false

def haRetained (s : Snapshot) : Bool :=
  match s.ha with
  | some hs => hs.retained || s.pending_retain_ha
  | none => false

end Snapshot

/-! ### Concrete fixtures used by witnesses and counterexamples -/

/-- A well-formed `appProperties` dictionary (slug, date, name, type). -/
def props0 : AppProps :=
  [(PROP_KEY_SLUG, "slugA"), (PROP_KEY_DATE, "1970-01-01"),
   (PROP_KEY_NAME, "nameA"), (PROP_TYPE, "tar")]

def heap0 : Heap := [props0]

/-- A raw Drive record whose `appProperties` is `heap0[0]`. -/
def rec0 : DriveSource := ⟨"driveid", 1024, 0⟩

/-- The artifact `DriveSnapshot.init heap0 rec0` constructs. -/
def d0 : DriveSnapshot := ⟨rec0, parseDateTime "1970-01-01"⟩

/-- A raw HA record with type "partial" and version "0.100". -/
def haSrc0 : HASource := ⟨"nameH", "slugH", 2, "1971-02-03", "partial", "0.100", false⟩

def haP : HASnapshot := HASnapshot.init haSrc0 false

/-! ### Dictionary and heap lemmas -/

theorem lookupProp_insertProp_self (ps : AppProps) (k v : String) :
    lookupProp (insertProp ps k v) k = some v := by
  induction ps with
  | nil => simp [insertProp, lookupProp]
  | cons p rest ih =>
    rcases p with ⟨k1, v1⟩
    by_cases hk : k1 = k
    · simp [insertProp, lookupProp, hk]
    · simp [insertProp, lookupProp, hk, ih]

theorem Heap.deref_setAt_self (h : Heap) (i : Nat) (v : AppProps)
    (hi : i < h.length) : Heap.deref (Heap.setAt h i v) i = v := by
  induction h generalizing i with
  | nil => simp at hi
  | cons a t ih =>
    cases i with
    | zero => simp [Heap.setAt, Heap.deref]
    | succ n =>
      have := ih n (by simpa using hi)
      simpa [Heap.setAt, Heap.deref, List.getD] using this

/-! ### Claim theorems -/

/-- C1: the status() decision table checks restoring first, then the
downloading rules, then presence; in particular an aggregate with both a
Drive and an HA record attached, downloadProgress 50, restoring unset and no
download failure reports "Loading 50%", not "Backed Up". -/
theorem c1_download_status_preempts_backed_up (s : Snapshot)
    (hres : s.restoring = none) (hdl : s.donwloading = 50)
    (hfail : s.donwload_failed = false)
    (hdr : s.driveitem.isSome = true) (hha : s.ha.isSome = true) :
    s.status = "Loading 50%" ∧ s.status ≠ "Backed Up" := by
  have h1 : s.status = "Loading 50%" := by
    simp [Snapshot.status, Snapshot.isDownloading, hres, hdl, hfail]
    rfl
  refine ⟨h1, ?_⟩
  rw [h1]
  decide

/-- Witness for C1 at a concrete aggregate: a Drive-initialized snapshot,
then setHA, then setDownloading 50. -/
theorem c1_witness :
    Snapshot.status
        (Snapshot.setDownloading 50
          (Snapshot.setHA haP (Snapshot.init (some (Sum.inr d0))))) =
      "Loading 50%" :=
  (c1_download_status_preempts_backed_up
    (Snapshot.setDownloading 50
      (Snapshot.setHA haP (Snapshot.init (some (Sum.inr d0)))))
    rfl rfl rfl rfl rfl).1

/-- C2: isPending() holds iff the pending flag is set, no HA record is
attached and the pending-failed flag is clear; isDeleted() holds iff
isPending() is false, no HA record and no Drive record are attached —
equivalently, no Drive, no HA, and either not pending or pendingHasFailed. -/
theorem c2_pending_deleted_characterization (s : Snapshot) :
    s.isPending = (s.pending && !s.isInHA && !s.pendingHasFailed) ∧
    s.isDeleted = (!s.isPending && !s.isInHA && !s.isInDrive) ∧
    s.isDeleted = (!s.isInDrive && !s.isInHA && (!s.pending || s.pendingHasFailed)) := by
  refine ⟨rfl, rfl, ?_⟩
  obtain ⟨dr, p, ha, dl, df, pn, pd, ps, up, phf, wb, rst, dn1, dn2, pr1, pr2, drv, dfa⟩ := s
  simp only [Snapshot.isDeleted, Snapshot.isPending, Snapshot.isInHA, Snapshot.isInDrive]
  cases p <;> cases phf <;> cases ha <;> cases dr <;> rfl

/-- An aggregate over a Drive record of a given byte size (size is a
top-level field of the raw record, so no appProperties are involved). -/
def aggOfSize (n : Int) : Snapshot :=
  Snapshot.init (some (Sum.inr ⟨⟨"id", n, 0⟩, parseDateTime "1970-01-01"⟩))

/-- C3 counterexample: at size exactly 1024 bytes the code returns
"1024 B" — the first branch is boundary-inclusive (`size <= 1024.0`) — and
not "1 kB" as the claim states. -/
theorem c3_counterexample :
    Snapshot.sizeString (aggOfSize 1024) = "1024 B" ∧
    Snapshot.sizeString (aggOfSize 1024) ≠ "1 kB" := by
  constructor
  · rfl
  · decide

/-- C3 amended: every boundary of sizeString is inclusive on the lower unit,
so 1023 bytes gives "1023 B", 1024 bytes gives "1024 B" (not "1 kB"),
1024*1024 bytes gives "1024 kB" (not "1 MB"), and 1024*1024*1024 - 1 bytes
gives "1023 MB" (truncating division, no rounding). -/
theorem c3_sizeString_boundaries (s1 s2 s3 s4 : Snapshot)
    (h1 : s1.size = 1023) (h2 : s2.size = 1024)
    (h3 : s3.size = 1024 * 1024) (h4 : s4.size = 1024 * 1024 * 1024 - 1) :
    s1.sizeString = "1023 B" ∧ s2.sizeString = "1024 B" ∧
    s3.sizeString = "1024 kB" ∧ s4.sizeString = "1023 MB" := by
  refine ⟨?_, ?_, ?_, ?_⟩ <;>
    simp only [Snapshot.sizeString, h1, h2, h3, h4] <;> decide

/-- Witness for C3 amended, at four concrete aggregates. -/
theorem c3_sizeString_boundaries_witness :
    Snapshot.sizeString (aggOfSize 1023) = "1023 B" ∧
    Snapshot.sizeString (aggOfSize 1024) = "1024 B" ∧
    Snapshot.sizeString (aggOfSize (1024 * 1024)) = "1024 kB" ∧
    Snapshot.sizeString (aggOfSize (1024 * 1024 * 1024 - 1)) = "1023 MB" :=
  c3_sizeString_boundaries (aggOfSize 1023) (aggOfSize 1024)
    (aggOfSize (1024 * 1024)) (aggOfSize (1024 * 1024 * 1024 - 1))
    rfl rfl rfl rfl

/-- C4: evaluation of the code at the failing inputs. On a remote-only
aggregate, snapshotType() raises AttributeError because the source reads
`self.driveItem` while the field is `driveitem`; version() on a local-only
aggregate returns the record's type ("partial") instead of its version
("0.100"), and on a remote-only aggregate returns the Drive record's type
("tar") instead of its version ("?" here, since no version key is set). -/
theorem c4_type_version_divergence :
    Snapshot.snapshotType (Snapshot.init (some (Sum.inr d0))) =
        Except.error (PyError.attributeError "driveItem") ∧
    Snapshot.version heap0 (Snapshot.init (some (Sum.inl haP))) =
        Except.ok "partial" ∧
    HASnapshot.version haP = "0.100" ∧
    Snapshot.version heap0 (Snapshot.init (some (Sum.inr d0))) = Except.ok "tar" ∧
    DriveSnapshot.version heap0 d0 = "?" :=
  ⟨rfl, rfl, rfl, rfl, rfl⟩

/-- C5: evaluation of the code at the failing input. update() with a Drive
record assigns the never-read `drive` field, so the remote slot is not
replaced and isInDrive() stays false on a pending aggregate; the local half
of update() does attach the HA record. -/
theorem c5_update_misroutes_remote :
    Snapshot.isInDrive (Snapshot.update (Sum.inr d0) (Snapshot.init none)) = false ∧
    (Snapshot.update (Sum.inr d0) (Snapshot.init none)).driveitem = none ∧
    (Snapshot.update (Sum.inr d0) (Snapshot.init none)).drive = some d0 ∧
    Snapshot.isInHA (Snapshot.update (Sum.inl haP) (Snapshot.init none)) = true :=
  ⟨rfl, rfl, rfl, rfl⟩

/-- C6 counterexample: the artifact constructed from `rec0` shares the
nested appProperties dictionary with the caller's record, so after
setRetain(true) the dictionary reachable from the caller's record has
changed — the claim says it is unchanged. -/
theorem c6_counterexample :
    DriveSnapshot.init heap0 rec0 = Except.ok d0 ∧
    Heap.deref (DriveSnapshot.setRetain heap0 d0 true) rec0.appProperties ≠
      Heap.deref heap0 rec0.appProperties :=
  ⟨rfl, by decide⟩

/-- C6 amended: for an artifact constructed from record r, setRetain(b)
makes the artifact's retained() equal b and leaves r's top-level fields
untouched, but — the constructor takes only a shallow copy — the nested
appProperties dictionary is shared with the caller, so the caller's nested
mapping is updated in place and afterwards maps "retained" to str(b). -/
theorem c6_setRetain_shared_appProperties (h : Heap) (r : DriveSource)
    (d : DriveSnapshot) (b : Bool)
    (hd : DriveSnapshot.init h r = Except.ok d)
    (hlt : r.appProperties < h.length) :
    DriveSnapshot.retained (DriveSnapshot.setRetain h d b) d = b ∧
    Heap.deref (DriveSnapshot.setRetain h d b) r.appProperties =
      insertProp (Heap.deref h r.appProperties) PROP_RETAINED (pyBoolStr b) ∧
    lookupProp (Heap.deref (DriveSnapshot.setRetain h d b) r.appProperties)
      PROP_RETAINED = some (pyBoolStr b) := by
  have hsrc : d.source = r := by
    unfold DriveSnapshot.init at hd
    split at hd
    · exact absurd hd (by simp)
    · injection hd with hd2
      subst hd2
      rfl
  have hderef : Heap.deref (DriveSnapshot.setRetain h d b) r.appProperties =
      insertProp (Heap.deref h r.appProperties) PROP_RETAINED (pyBoolStr b) := by
    rw [DriveSnapshot.setRetain, hsrc]
    exact Heap.deref_setAt_self h r.appProperties _ hlt
  have hlook : lookupProp (Heap.deref (DriveSnapshot.setRetain h d b)
      r.appProperties) PROP_RETAINED = some (pyBoolStr b) := by
    rw [hderef]
    exact lookupProp_insertProp_self _ _ _
  have hret : DriveSnapshot.retained (DriveSnapshot.setRetain h d b) d = b := by
    rw [DriveSnapshot.retained, hsrc, hlook]
    cases b <;> rfl
  exact ⟨hret, hderef, hlook⟩

/-- Witness for C6 amended at the concrete fixture. -/
theorem c6_setRetain_shared_appProperties_witness :
    DriveSnapshot.retained (DriveSnapshot.setRetain heap0 d0 true) d0 = true :=
  (c6_setRetain_shared_appProperties heap0 rec0 d0 true rfl (by decide)).1

/-- C7 counterexample: the claim quantifies over every aggregate, but on an
aggregate holding a local HA record, isPending() is false even right after
setPending(name, date, true, false), because isPending() requires no local
record to be attached. -/
theorem c7_counterexample :
    Snapshot.isPending
        (Snapshot.setPending "n" (parseDateTime "1972-01-01") true false
          (Snapshot.init (some (Sum.inl haP)))) = false := by
  decide

/-- C7 amended: for every aggregate with no local record, no remote record
and the pending-failed flag clear, after setPending(name, date, true, false)
isPending() is true and driveRetained() is false; after a subsequent
setDrive(d) with d.retained() false, driveRetained() is true — the pending
remote-retention intent survives the setter sequence. -/
theorem c7_setPending_setDrive_retain (s : Snapshot) (nm : String)
    (t : DateTime) (h : Heap) (d : DriveSnapshot)
    (hha : s.ha = none) (hdr : s.driveitem = none)
    (hpf : s.pendingHasFailed = false)
    (hret : DriveSnapshot.retained h d = false) :
    Snapshot.isPending (Snapshot.setPending nm t true false s) = true ∧
    Snapshot.driveRetained h (Snapshot.setPending nm t true false s) = false ∧
    Snapshot.driveRetained h
      (Snapshot.setDrive d (Snapshot.setPending nm t true false s)) = true := by
  refine ⟨?_, ?_, ?_⟩
  · simp [Snapshot.isPending, Snapshot.setPending, Snapshot.isInHA, hha, hpf]
  · simp [Snapshot.driveRetained, Snapshot.setPending, hdr]
  · simp [Snapshot.driveRetained, Snapshot.setDrive, Snapshot.setPending, hret]

/-- Witness for C7 amended: a pure pending placeholder, setPending, then
setDrive of a record with no retained property. -/
theorem c7_witness :
    Snapshot.driveRetained heap0
        (Snapshot.setDrive d0
          (Snapshot.setPending "n" (parseDateTime "1972-01-01") true false
            (Snapshot.init none))) = true :=
  (c7_setPending_setDrive_retain (Snapshot.init none) "n"
    (parseDateTime "1972-01-01") heap0 d0 rfl rfl rfl rfl).2.2

/-- C8 counterexample: a raw record whose appProperties holds only the date
key — name and slug are both missing — constructs successfully, while the
claim says construction must fail for any missing required key. -/
theorem c8_counterexample :
    DriveSnapshot.init [[(PROP_KEY_DATE, "1970-01-01")]] ⟨"x", 0, 0⟩ =
      Except.ok ⟨⟨"x", 0, 0⟩, parseDateTime "1970-01-01"⟩ := rfl

/-- C8 amended: construction reads only the date key, so it succeeds exactly
when snapshot_date is present in appProperties, and otherwise fails with a
KeyError naming snapshot_date; missing name or slug keys do not prevent
construction (their accessors fail later, on use). -/
theorem c8_init_fails_iff_date_missing (h : Heap) (r : DriveSource) :
    ((DriveSnapshot.init h r).isOk = true ↔
      (lookupProp (Heap.deref h r.appProperties) PROP_KEY_DATE).isSome = true) ∧
    (lookupProp (Heap.deref h r.appProperties) PROP_KEY_DATE = none →
      DriveSnapshot.init h r = Except.error (PyError.keyError PROP_KEY_DATE)) := by
  unfold DriveSnapshot.init
  rcases hlk : lookupProp (Heap.deref h r.appProperties) PROP_KEY_DATE with _ | v <;>
    simp [hlk, Except.isOk, Except.toBool]

/-- Witness for C8 amended: on an empty heap cell the date key is absent and
construction fails with a KeyError naming snapshot_date. -/
theorem c8_witness :
    DriveSnapshot.init [[]] ⟨"x", 0, 0⟩ =
      Except.error (PyError.keyError PROP_KEY_DATE) :=
  (c8_init_fails_iff_date_missing [[]] ⟨"x", 0, 0⟩).2 rfl

/-- C9: update() with a local HA record is idempotent — a second update with
the same unchanged record yields the same aggregate state, hence the same
values from every derived accessor. -/
theorem c9_update_local_idempotent (h : Heap) (now : DateTime) (s : Snapshot)
    (l : HASnapshot) :
    Snapshot.update (Sum.inl l) (Snapshot.update (Sum.inl l) s) =
      Snapshot.update (Sum.inl l) s ∧
    Snapshot.name h (Snapshot.update (Sum.inl l) (Snapshot.update (Sum.inl l) s)) =
      Snapshot.name h (Snapshot.update (Sum.inl l) s) ∧
    Snapshot.slug h (Snapshot.update (Sum.inl l) (Snapshot.update (Sum.inl l) s)) =
      Snapshot.slug h (Snapshot.update (Sum.inl l) s) ∧
    Snapshot.size (Snapshot.update (Sum.inl l) (Snapshot.update (Sum.inl l) s)) =
      Snapshot.size (Snapshot.update (Sum.inl l) s) ∧
    Snapshot.date now (Snapshot.update (Sum.inl l) (Snapshot.update (Sum.inl l) s)) =
      Snapshot.date now (Snapshot.update (Sum.inl l) s) ∧
    Snapshot.snapshotType (Snapshot.update (Sum.inl l) (Snapshot.update (Sum.inl l) s)) =
      Snapshot.snapshotType (Snapshot.update (Sum.inl l) s) ∧
    Snapshot.version h (Snapshot.update (Sum.inl l) (Snapshot.update (Sum.inl l) s)) =
      Snapshot.version h (Snapshot.update (Sum.inl l) s) ∧
    Snapshot.protected_ h (Snapshot.update (Sum.inl l) (Snapshot.update (Sum.inl l) s)) =
      Snapshot.protected_ h (Snapshot.update (Sum.inl l) s) ∧
    Snapshot.status (Snapshot.update (Sum.inl l) (Snapshot.update (Sum.inl l) s)) =
      Snapshot.status (Snapshot.update (Sum.inl l) s) ∧
    Snapshot.sizeString (Snapshot.update (Sum.inl l) (Snapshot.update (Sum.inl l) s)) =
      Snapshot.sizeString (Snapshot.update (Sum.inl l) s) ∧
    Snapshot.isPending (Snapshot.update (Sum.inl l) (Snapshot.update (Sum.inl l) s)) =
      Snapshot.isPending (Snapshot.update (Sum.inl l) s) ∧
    Snapshot.isDeleted (Snapshot.update (Sum.inl l) (Snapshot.update (Sum.inl l) s)) =
      Snapshot.isDeleted (Snapshot.update (Sum.inl l) s) :=
  ⟨rfl, rfl, rfl, rfl, rfl, rfl, rfl, rfl, rfl, rfl, rfl, rfl⟩

/-- C10: setDownloading(p) writes the download percentage and an unrelated
shadowing attribute, not the donwload_failed flag; with the failure flag
set, any setDownloading(p), p nonnegative, restoring unset, leaves the flag
set and status() reports "Loading Failed!". The flag survives setDrive,
setPending, endPending, uploading and update, and only setHA clears it. -/
theorem c10_setDownloading_preserves_failure (s : Snapshot) (p : Int)
    (l : HASnapshot) (d : DriveSnapshot) (nm : String) (t : DateTime)
    (sl : String) (w : Bool) (q : Int) (u : HASnapshot ⊕ DriveSnapshot)
    (hf : s.donwload_failed = true) (hres : s.restoring = none) (hp : 0 ≤ p) :
    (Snapshot.setDownloading p s).donwload_failed = true ∧
    Snapshot.status (Snapshot.setDownloading p s) = "Loading Failed!" ∧
    (Snapshot.setDrive d s).donwload_failed = true ∧
    (Snapshot.setPending nm t w w s).donwload_failed = true ∧
    (Snapshot.endPending sl s).donwload_failed = true ∧
    (Snapshot.uploading q s).donwload_failed = true ∧
    (Snapshot.update u s).donwload_failed = true ∧
    (Snapshot.setHA l s).donwload_failed = false := by
  refine ⟨hf, ?_, hf, hf, hf, hf, ?_, rfl⟩
  · simp [Snapshot.status, Snapshot.setDownloading, Snapshot.isDownloading,
      hres, hf, hp]
  · cases u <;> exact hf

/-- Witness for C10: a Drive-only aggregate whose download has failed, then
setDownloading 50. -/
theorem c10_witness :
    Snapshot.status
        (Snapshot.setDownloading 50
          (Snapshot.downloadFailed (Snapshot.init (some (Sum.inr d0))))) =
      "Loading Failed!" :=
  (c10_setDownloading_preserves_failure
    (Snapshot.downloadFailed (Snapshot.init (some (Sum.inr d0)))) 50 haP d0 "n"
    (parseDateTime "1972-01-01") "slugX" true 3 (Sum.inl haP) rfl rfl
    (by decide)).2.1

end Snapshots
